import Mathlib

/-!
Shallow embedding of the program-build subsystem of the go-opencl binding
(`cl/program.go`): the `Program` entity, its build orchestration, the
build-log aggregator and the release lifecycle.  The native OpenCL layer
(`clBuildProgram`, `clGetProgramBuildInfo`, `clGetProgramInfo`,
`clCreateKernel`) and the `Device` name query are not part of the source
tree; they are modelled as an explicit oracle (`Native`) passed to every
operation, so that each theorem quantifies over every native behaviour.
-/

set_option autoImplicit false

/-- Native status codes used by the subsystem (values from the OpenCL headers). -/
def CL_SUCCESS : Int := 0

/-- `CL_INVALID_PROGRAM` status code. -/
def CL_INVALID_PROGRAM : Int := -44

/-- `CL_INVALID_DEVICE` status code. -/
def CL_INVALID_DEVICE : Int := -33

/-- `CL_BUILD_PROGRAM_FAILURE` status code. -/
def CL_BUILD_PROGRAM_FAILURE : Int := -11

/-- Modelled from the spec: the Status Translator (`toError`, defined outside
`src/`) maps a native status code to a structured error kind; it is total with
named kinds for the codes this subsystem tests for and a catch-all. -/
inductive CLErr where
  | invalidProgram
  | invalidDevice
  | other (code : Int)
  deriving DecidableEq, Repr

/-- Modelled from the spec: the status-code-to-structured-error translation. -/
def toError (code : Int) : CLErr :=
  if code = CL_INVALID_PROGRAM then CLErr.invalidProgram
  else if code = CL_INVALID_DEVICE then CLErr.invalidDevice
  else CLErr.other code

/-- Modelled from the spec: the rendered text of a structured status error
(`err.Error()` in Go).  The exact strings live outside `src/`; what matters
for the claims is that each kind renders deterministically. -/
def errText : CLErr → String
  | CLErr.invalidProgram => "cl: Invalid Program"
  | CLErr.invalidDevice => "cl: Invalid Device"
  | CLErr.other code => "cl: error " ++ toString code

/-- A `*Device` points at an opaque native device identifier.  The identity
token (`id`, a pointer-sized key) is the only field `program.go` reads
directly; `0` models a null native id.  A Go `nil` pointer is modelled as
`Option.none` at every use site that takes a `*Device`. -/
structure Device where
  id : Nat
  deriving DecidableEq, Repr

/-- `deviceIDKey`: the dedup key of a possibly-nil `*Device`
(`uintptr(unsafe.Pointer(d.id))`, with `nil` mapping to `0`). -/
def deviceIDKey : Option Device → Nat
  | none => 0
  | some d => d.id

/-- The oracle for the native layer and the `Device` name query, neither of
which is in `src/`.  `buildStatus` is `clBuildProgram`'s status on a live
program handle; `buildLogRaw` collapses the `clGetProgramBuildInfo`
size-query/fetch pair for one device id into one fallible response (an error
status from either call, or the raw, possibly null-terminated, log bytes as a
string, `""` for a zero reported size); `progDeviceIds` is the
`clGetProgramInfo(CL_PROGRAM_DEVICES)` size-query/fetch pair (entries may be
null); `deviceName` models `Device.Name()`, where `.error` stands for a panic
raised inside the name resolution; `createKernelStatus` is `clCreateKernel`'s
status on a live handle. -/
structure Native where
  buildStatus : Int
  buildLogRaw : Nat → Except Int String
  progDeviceIds : Except Int (List (Option Nat))
  deviceName : Nat → Except Unit String
  createKernelStatus : Int

/-- The `Program` entity: an owned native compiled-unit handle (`none` once
released) and the cached associated-devices list. -/
structure Program where
  clProgram : Option Nat
  devices : List (Option Device)
  deriving DecidableEq, Repr

/-- A `Kernel` entity as far as this subsystem constructs it: the entry-point
name recorded at creation (the native kernel handle is opaque). -/
structure Kernel where
  name : String
  deriving DecidableEq, Repr

/-- The error values `BuildProgram` can return: a bare translated status error
(`toError(code)`), the `fmt.Errorf("cl: build error (%v; log unavailable: %v)")`
annotated status error, or the composite `BuildError` string. -/
inductive GoError where
  | status (e : CLErr)
  | statusAnnotated (e : CLErr) (reason : CLErr)
  | build (msg : String)
  deriving DecidableEq, Repr

/-- Whether an error value is the composite `BuildError` kind. -/
def GoError.isBuild : GoError → Bool
  | GoError.build _ => true
  | _ => false

/-- The rendered text of each error value (`err.Error()`):
`BuildError.Error` wraps its payload in `"cl: build error (%s)"`, and the
annotated form renders via `"cl: build error (%v; log unavailable: %v)"`. -/
def errorText : GoError → String
  | GoError.status e => errText e
  | GoError.statusAnnotated e reason =>
      "cl: build error (" ++ errText e ++ "; log unavailable: " ++ errText reason ++ ")"
  | GoError.build msg => "cl: build error (" ++ msg ++ ")"

/-- `releaseProgram`: release the native handle if present (counting native
release calls, to state the no-double-free property), then clear the cached
device list. -/
def releaseProgram (p : Program) : Program × Nat :=
  match p.clProgram with
  | some _ => ({ clProgram := none, devices := [] }, 1)
  | none => ({ p with devices := [] }, 0)

/-- `Program.Release`: delegates to `releaseProgram`. -/
def Program.Release (p : Program) : Program × Nat :=
  releaseProgram p

/-- Modelled from the spec: the status `clBuildProgram` reports.  On a released
(nil) handle the native call fails with the invalid-program status — the spec
makes release terminal, with every later operation failing as invalid program —
and on a live handle the status is the oracle's response. -/
def clBuildProgramStatus (nat : Native) (p : Program) : Int :=
  match p.clProgram with
  | none => CL_INVALID_PROGRAM
  | some _ => nat.buildStatus

/-- Modelled from the spec: the status `clCreateKernel` reports, invalid
program on a released handle, the oracle's response otherwise. -/
def clCreateKernelStatus (nat : Native) (p : Program) : Int :=
  match p.clProgram with
  | none => CL_INVALID_PROGRAM
  | some _ => nat.createKernelStatus

/-- `Program.CreateKernel`: surface the native status unchanged on failure,
otherwise wrap the new kernel handle with the entry-point name. -/
def Program.CreateKernel (nat : Native) (p : Program) (name : String) :
    Except CLErr Kernel :=
  let status := clCreateKernelStatus nat p
  if status = CL_SUCCESS then Except.ok { name := name }
  else Except.error (toError status)

/-- `buf = buf[:idx]` at the first zero byte (`bytes.IndexByte(buf, 0)`):
truncate the raw log at its first null terminator. -/
def trimAtNull (s : String) : String :=
  String.mk (s.toList.takeWhile (fun c => c ≠ Char.ofNat 0))

/-- `Program.GetBuildLog`: invalid program when released, invalid device for a
nil device pointer, otherwise query the native build log for the device and
truncate it at the null terminator (a zero reported size yields `""`). -/
def Program.GetBuildLog (nat : Native) (p : Program) (device : Option Device) :
    Except CLErr String :=
  match p.clProgram with
  | none => Except.error CLErr.invalidProgram
  | some _ =>
    match device with
    | none => Except.error CLErr.invalidDevice
    | some d =>
      match nat.buildLogRaw d.id with
      | Except.error code => Except.error (toError code)
      | Except.ok raw =>
        if raw = "" then Except.ok ""
        else Except.ok (trimAtNull raw)

/-- `Program.associatedDevices`: the `CL_PROGRAM_DEVICES` query — invalid
program when released, a zero reported size is an empty result (not an error),
null entries are filtered out and each surviving native id is wrapped as a
fresh `Device`.  (The element-size consistency check in the source compares a
compile-time pointer size against zero and cannot fire; it is not modelled.) -/
def Program.associatedDevices (nat : Native) (p : Program) :
    Except CLErr (List (Option Device)) :=
  match p.clProgram with
  | none => Except.error CLErr.invalidProgram
  | some _ =>
    match nat.progDeviceIds with
    | Except.error code => Except.error (toError code)
    | Except.ok ids =>
      Except.ok (ids.filterMap (fun id? =>
        match id? with
        | none => none
        | some id => some (some { id := id })))

/-- The `add` closure of `collectDevicesForLogs`: fold a device list into the
accumulator, skipping zero keys and keys already seen, first occurrence wins.
Returns the updated `(seen, list)` state. -/
def addDevices : List Nat → List (Option Device) → List (Option Device) →
    List Nat × List (Option Device)
  | seen, acc, [] => (seen, acc)
  | seen, acc, d :: rest =>
    if deviceIDKey d = 0 then addDevices seen acc rest
    else if deviceIDKey d ∈ seen then addDevices seen acc rest
    else addDevices (deviceIDKey d :: seen) (acc ++ [d]) rest

/-- `Program.collectDevicesForLogs`: dedup the explicitly requested devices,
then the cached associated devices, by identity key; if the union is empty,
fall back to the native associated-devices query (feeding its result through
the same dedup state), propagating a discovery failure as the error. -/
def Program.collectDevicesForLogs (nat : Native) (p : Program)
    (requested : List (Option Device)) : Except CLErr (List (Option Device)) :=
  let s1 := addDevices [] [] requested
  let s2 := addDevices s1.1 s1.2 p.devices
  if s2.2 = [] then
    match p.associatedDevices nat with
    | Except.ok progDevices => Except.ok (addDevices s2.1 s2.2 progDevices).2
    | Except.error err => Except.error err
  else Except.ok s2.2

/-- The ASCII fragment of Go's `unicode.IsSpace` (space, tab, newline,
vertical tab, form feed, carriage return); the full Unicode space table is
elided. -/
def isSpaceGo (c : Char) : Bool :=
  c = ' ' || c = '\t' || c = '\n' || c = Char.ofNat 11 || c = Char.ofNat 12 || c = '\r'

/-- `strings.TrimSpace`: drop leading and trailing whitespace.  (Defined by
structural recursion so that concrete instances evaluate in the kernel.) -/
def trimSpace (s : String) : String :=
  String.mk (((s.toList.dropWhile isSpaceGo).reverse.dropWhile isSpaceGo).reverse)

/-- `safeDeviceLabel`: `"device<nil>"` for a nil device; otherwise the trimmed
device name when it resolves non-empty, the synthetic `device@0x<key>` label
when the name resolves empty or whitespace-only.  When `Name()` panics, the
deferred `recover` swallows the panic, but the function's result is an
UNNAMED return value, so the assignment to the local `label` inside the
deferred closure is lost and the function returns the zero value `""`. -/
def safeDeviceLabel (nat : Native) (d : Option Device) : String :=
  match d with
  | none => "device<nil>"
  | some dev =>
    let fallback := "device@0x" ++ String.mk (Nat.toDigits 16 dev.id)
    match nat.deviceName dev.id with
    | Except.error _ => ""
    | Except.ok rawName =>
      let name := trimSpace rawName
      if name = "" then fallback else name

/-- `Program.collectBuildLogs`: the per-device loop — a failed fetch emits an
`"<label>: <unable to fetch build log: <error>>"` section and the loop goes on;
a fetched log is whitespace-trimmed, contributing nothing when empty and an
`"<label>:\n<trimmed log>"` section otherwise. -/
def Program.collectBuildLogs (nat : Native) (p : Program) :
    List (Option Device) → List String
  | [] => []
  | dev :: rest =>
    match p.GetBuildLog nat dev with
    | Except.error err =>
        (safeDeviceLabel nat dev ++ ": <unable to fetch build log: " ++ errText err ++ ">")
          :: p.collectBuildLogs nat rest
    | Except.ok log =>
        if trimSpace log = "" then p.collectBuildLogs nat rest
        else (safeDeviceLabel nat dev ++ ":\n" ++ trimSpace log) :: p.collectBuildLogs nat rest

/-- `Program.wrapBuildError`: resolve the device set (a resolution failure
yields the annotated status error), collect the per-device logs, and compose —
no sections falls back to the bare translated status, otherwise the
`status=` line is prepended and everything joined with newlines into a
`BuildError`. -/
def Program.wrapBuildError (nat : Native) (p : Program) (code : Int)
    (requested : List (Option Device)) : GoError :=
  match p.collectDevicesForLogs nat requested with
  | Except.error err => GoError.statusAnnotated (toError code) err
  | Except.ok devices =>
    let logs := p.collectBuildLogs nat devices
    if logs = [] then GoError.status (toError code)
    else
      GoError.build (String.intercalate "\n"
        (("status=" ++ errText (toError code)) :: logs))

/-- `Program.BuildProgram`: invoke the native build; on failure delegate to
`wrapBuildError` (which never returns nil, so the `toError` fallback branch of
the source is dead) leaving the state untouched; on success cache a copy of a
non-empty explicit device list, or, when both the argument and the cache are
empty, try auto-discovery and cache a non-empty successful result, swallowing
any discovery failure.  The options string is forwarded to the native call
only. -/
def Program.BuildProgram (nat : Native) (p : Program)
    (devices : List (Option Device)) (options : String) :
    Program × Option GoError :=
  let _ := options
  let errCode := clBuildProgramStatus nat p
  if errCode = CL_SUCCESS then
    if devices.length > 0 then
      ({ p with devices := devices }, none)
    else if p.devices.length = 0 then
      match p.associatedDevices nat with
      | Except.ok progDevices =>
        if progDevices.length > 0 then ({ p with devices := progDevices }, none)
        else (p, none)
      | Except.error _ => (p, none)
    else (p, none)
  else (p, some (p.wrapBuildError nat errCode devices))

/-- Spec-side restatement of the aggregator's device-set resolution: one pass
over a device list, dropping zero keys and keys already seen, first occurrence
winning, order preserved.  `collectDevicesForLogs` is proved to refine it. -/
def dedupByKey : List (Option Device) → List Nat → List (Option Device)
  | [], _ => []
  | d :: rest, seen =>
    if deviceIDKey d = 0 then dedupByKey rest seen
    else if deviceIDKey d ∈ seen then dedupByKey rest seen
    else d :: dedupByKey rest (deviceIDKey d :: seen)

/-- The set of keys recorded after one dedup pass, matching `addDevices`. -/
def seenAfter : List (Option Device) → List Nat → List Nat
  | [], seen => seen
  | d :: rest, seen =>
    if deviceIDKey d = 0 then seenAfter rest seen
    else if deviceIDKey d ∈ seen then seenAfter rest seen
    else seenAfter rest (deviceIDKey d :: seen)

/-- Spec-side restatement of one loop step of `collectBuildLogs`: the section
a single device contributes, if any. -/
def sectionFor (nat : Native) (p : Program) (dev : Option Device) : Option String :=
  match p.GetBuildLog nat dev with
  | Except.error err =>
      some (safeDeviceLabel nat dev ++ ": <unable to fetch build log: " ++ errText err ++ ">")
  | Except.ok log =>
      if trimSpace log = "" then none
      else some (safeDeviceLabel nat dev ++ ":\n" ++ trimSpace log)

/-- Concrete device fixtures used to evaluate the operations. -/
def devOne : Device := { id := 1 }

/-- Second fixture device. -/
def devTwo : Device := { id := 2 }

/-- Third fixture device. -/
def devThree : Device := { id := 3 }

/-- A live Program with no cached devices. -/
def progLive : Program := { clProgram := some 5, devices := [] }

/-- A live Program whose cache holds `[devTwo, devThree]`. -/
def progCached : Program := { clProgram := some 5, devices := [some devTwo, some devThree] }

/-- A Program released after having been built for `devOne`. -/
def progReleased : Program :=
  (Program.Release { clProgram := some 5, devices := [some devOne] }).1

/-- Name resolution fixture: device 1 is `GPU0`, every other id `GPU1`. -/
def gpuNames : Nat → Except Unit String :=
  fun d => if d = 1 then Except.ok "GPU0" else Except.ok "GPU1"

/-- Oracle fixture: the build fails, device 1 has a syntax-error log, every
other device a clean (empty) log. -/
def oracleMixed : Native :=
  { buildStatus := CL_BUILD_PROGRAM_FAILURE
    buildLogRaw := fun d => if d = 1 then Except.ok "error: syntax\n" else Except.ok ""
    progDeviceIds := Except.ok []
    deviceName := gpuNames
    createKernelStatus := CL_SUCCESS }

/-- Oracle fixture: as `oracleMixed` but the associated-devices query fails. -/
def oracleDiscoveryFail : Native :=
  { oracleMixed with progDeviceIds := Except.error (-34) }

/-- Oracle fixture: the build succeeds. -/
def oracleOk : Native := { oracleMixed with buildStatus := CL_SUCCESS }

/-- Oracle fixture: the build succeeds and the associated-devices query
reports ids 10, a null entry, and 11. -/
def oracleDiscovery : Native :=
  { oracleOk with progDeviceIds := Except.ok [some 10, none, some 11] }

/-- Oracle fixture: every device-name resolution panics. -/
def oraclePanicName : Native :=
  { oracleMixed with deviceName := fun _ => Except.error () }

/-- Oracle fixture: every device-name resolution yields whitespace only. -/
def oracleBlankName : Native :=
  { oracleMixed with deviceName := fun _ => Except.ok "  " }

/-- Oracle fixture: the log fetch fails for device 1 and yields a non-empty
log for every other device. -/
def oracleFetchMixed : Native :=
  { oracleMixed with
      buildLogRaw := fun d => if d = 1 then Except.error (-42) else Except.ok "warn\n" }

/-- The accumulator-threaded `add` closure computes the recorded key set and
appends the one-pass dedup of its argument to the accumulator. -/
theorem addDevices_eq : ∀ (l : List (Option Device)) (seen : List Nat)
    (acc : List (Option Device)),
    addDevices seen acc l = (seenAfter l seen, acc ++ dedupByKey l seen)
  | [], seen, acc => by simp [addDevices, seenAfter, dedupByKey]
  | d :: rest, seen, acc => by
    by_cases h0 : deviceIDKey d = 0
    · simp [addDevices, seenAfter, dedupByKey, h0, addDevices_eq rest]
    · by_cases hm : deviceIDKey d ∈ seen
      · simp [addDevices, seenAfter, dedupByKey, h0, hm, addDevices_eq rest]
      · simp [addDevices, seenAfter, dedupByKey, h0, hm, addDevices_eq rest]

/-- One dedup pass over a concatenation is the pass over the first part
followed by the pass over the second under the first part's recorded keys. -/
theorem dedupByKey_append : ∀ (l1 l2 : List (Option Device)) (seen : List Nat),
    dedupByKey (l1 ++ l2) seen = dedupByKey l1 seen ++ dedupByKey l2 (seenAfter l1 seen)
  | [], l2, seen => by simp [dedupByKey, seenAfter]
  | d :: rest, l2, seen => by
    by_cases h0 : deviceIDKey d = 0
    · simp [dedupByKey, seenAfter, h0, dedupByKey_append rest]
    · by_cases hm : deviceIDKey d ∈ seen
      · simp [dedupByKey, seenAfter, h0, hm, dedupByKey_append rest]
      · simp [dedupByKey, seenAfter, h0, hm, dedupByKey_append rest]

/-- The per-device loop of `collectBuildLogs` computes exactly the section of
each device in order, devices contributing no section dropped. -/
theorem collectBuildLogs_eq_filterMap (nat : Native) (p : Program) :
    ∀ ds : List (Option Device),
      p.collectBuildLogs nat ds = ds.filterMap (sectionFor nat p)
  | [] => by simp [Program.collectBuildLogs]
  | dev :: rest => by
    cases h : p.GetBuildLog nat dev with
    | error err =>
      simp [Program.collectBuildLogs, sectionFor, h,
        collectBuildLogs_eq_filterMap nat p rest]
    | ok log =>
      by_cases ht : trimSpace log = ""
      · simp [Program.collectBuildLogs, sectionFor, h, ht,
          collectBuildLogs_eq_filterMap nat p rest]
      · simp [Program.collectBuildLogs, sectionFor, h, ht,
          collectBuildLogs_eq_filterMap nat p rest]

/-- The log-collection loop distributes over list concatenation. -/
theorem collectBuildLogs_append (nat : Native) (p : Program)
    (a b : List (Option Device)) :
    p.collectBuildLogs nat (a ++ b) =
      p.collectBuildLogs nat a ++ p.collectBuildLogs nat b := by
  simp [collectBuildLogs_eq_filterMap]

/-- Releasing leaves the handle absent and the cached device list empty. -/
theorem release_state (q : Program) :
    (q.Release).1.clProgram = none ∧ (q.Release).1.devices = [] := by
  cases h : q.clProgram <;> simp [Program.Release, releaseProgram, h]

/-- A released Program answers every build-log query with the invalid-program
error, whatever the device argument. -/
theorem getBuildLog_released (nat : Native) (p : Program) (dev : Option Device)
    (hp : p.clProgram = none) :
    p.GetBuildLog nat dev = Except.error CLErr.invalidProgram := by
  simp [Program.GetBuildLog, hp]

/-- On a released Program every resolved device contributes a section (its
fetch fails), so the loop emits one section per device. -/
theorem collectBuildLogs_released_length (nat : Native) (p : Program)
    (hp : p.clProgram = none) :
    ∀ ds : List (Option Device), (p.collectBuildLogs nat ds).length = ds.length
  | [] => by simp [Program.collectBuildLogs]
  | dev :: rest => by
    simp [Program.collectBuildLogs, getBuildLog_released nat p dev hp,
      collectBuildLogs_released_length nat p hp rest]

/-- On a released Program a successful device-set resolution is never empty:
the empty-union fallback queries the native layer, which fails with the
invalid-program error. -/
theorem collectDevicesForLogs_released_ne_nil (nat : Native) (p : Program)
    (req ds : List (Option Device)) (hp : p.clProgram = none)
    (h : p.collectDevicesForLogs nat req = Except.ok ds) : ds ≠ [] := by
  have ha : p.associatedDevices nat = Except.error CLErr.invalidProgram := by
    simp [Program.associatedDevices, hp]
  simp only [Program.collectDevicesForLogs, ha] at h
  split at h
  · simp at h
  · rename_i hne
    rw [Except.ok.injEq] at h
    exact h ▸ hne

/-- A device whose fetch fails contributes its unable-to-fetch section and the
loop continues. -/
theorem collectBuildLogs_cons_error (nat : Native) (p : Program)
    (dev : Option Device) (rest : List (Option Device)) (e : CLErr)
    (h : p.GetBuildLog nat dev = Except.error e) :
    p.collectBuildLogs nat (dev :: rest) =
      (safeDeviceLabel nat dev ++ ": <unable to fetch build log: " ++ errText e ++ ">")
        :: p.collectBuildLogs nat rest := by
  simp [Program.collectBuildLogs, h]

/-- A device whose fetch yields a non-blank log contributes its log section
and the loop continues. -/
theorem collectBuildLogs_cons_ok (nat : Native) (p : Program)
    (dev : Option Device) (rest : List (Option Device)) (s : String)
    (h : p.GetBuildLog nat dev = Except.ok s) (hs : trimSpace s ≠ "") :
    p.collectBuildLogs nat (dev :: rest) =
      (safeDeviceLabel nat dev ++ ":\n" ++ trimSpace s) :: p.collectBuildLogs nat rest := by
  simp [Program.collectBuildLogs, h, hs]

/-- On a released Program `wrapBuildError` never produces a bare translated
status error: either the resolution fallback fails (yielding the annotated
status error) or every resolved device contributes an unable-to-fetch section
(yielding a composite `BuildError`). -/
theorem wrapBuildError_released_not_bare (nat : Native) (p : Program) (code : Int)
    (devs : List (Option Device)) (hp : p.clProgram = none) (e : CLErr) :
    p.wrapBuildError nat code devs ≠ GoError.status e := by
  cases h : p.collectDevicesForLogs nat devs with
  | error err => simp [Program.wrapBuildError, h]
  | ok ds =>
    have hne : ds ≠ [] := collectDevicesForLogs_released_ne_nil nat p devs ds hp h
    have hlen : (p.collectBuildLogs nat ds).length = ds.length :=
      collectBuildLogs_released_length nat p hp ds
    have hlogs : p.collectBuildLogs nat ds ≠ [] := by
      intro hc
      apply hne
      rw [hc] at hlen
      exact List.length_eq_zero.mp hlen.symm
    simp [Program.wrapBuildError, h, hlogs]

/-- Claim C9: releasing a Program twice is observably the same as releasing it
once — the second call signals nothing, performs zero native releases (so the
native handle is released at most once in total), and after either one or two
calls the handle is absent and the cached device list is empty. -/
theorem c9_release_idempotent (p : Program) :
    ((p.Release).1).Release = ((p.Release).1, 0) ∧
    (p.Release).2 ≤ 1 ∧
    ((p.Release).1).clProgram = none ∧
    ((p.Release).1).devices = [] := by
  cases h : p.clProgram <;> simp [Program.Release, releaseProgram, h]

/-- Claim C10: when the native build invocation fails, `BuildProgram` returns
the error and leaves the Program exactly as it was — neither the compiled-unit
handle nor the cached device list changes on any error path. -/
theorem c10_build_failure_frame (nat : Native) (p : Program)
    (devs : List (Option Device)) (opts : String)
    (h : clBuildProgramStatus nat p ≠ CL_SUCCESS) :
    (p.BuildProgram nat devs opts).1 = p ∧ (p.BuildProgram nat devs opts).2 ≠ none := by
  simp [Program.BuildProgram, h]

/-- Witness for C10: a failing build on a live Program with one requested
device returns an error and leaves the state untouched. -/
theorem c10_build_failure_frame_witness :
    (progLive.BuildProgram oracleMixed [some devOne] "-O2").1 = progLive ∧
    (progLive.BuildProgram oracleMixed [some devOne] "-O2").2 ≠ none :=
  c10_build_failure_frame oracleMixed progLive [some devOne] "-O2" (by decide)

/-- Claim C2 (code bug): when the device name resolution panics, the label
computed by `safeDeviceLabel` is the empty string, not the synthetic
`device@0x<token>` label the recover handler assigns — the handler writes to a
local while the function's unnamed result has already defaulted to the zero
value; the whitespace-only-name case does fall back as claimed. -/
theorem c2_panicking_name_label :
    safeDeviceLabel oraclePanicName (some { id := 7 }) = "" ∧
    "" ≠ "device@0x" ++ String.mk (Nat.toDigits 16 7) ∧
    safeDeviceLabel oracleBlankName (some { id := 7 }) =
      "device@0x" ++ String.mk (Nat.toDigits 16 7) := by
  decide

/-- Claim C4: for a failed build the resolved device set for log aggregation
is the requested devices followed by the cached associated devices,
deduplicated by identity key, first occurrence winning, order preserved. -/
theorem c4_dedup_resolution (nat : Native) (p : Program)
    (requested : List (Option Device))
    (h : dedupByKey (requested ++ p.devices) [] ≠ []) :
    p.collectDevicesForLogs nat requested =
      Except.ok (dedupByKey (requested ++ p.devices) []) := by
  have key : (addDevices (addDevices [] [] requested).1
        (addDevices [] [] requested).2 p.devices).2
      = dedupByKey (requested ++ p.devices) [] := by
    rw [addDevices_eq, addDevices_eq, dedupByKey_append]
    simp
  simp only [Program.collectDevicesForLogs]
  rw [key, if_neg h]

/-- Witness for C4: requested `[d1, d2]` with cached `[d2, d3]` resolves to
`[d1, d2, d3]`. -/
theorem c4_dedup_resolution_witness :
    progCached.collectDevicesForLogs oracleMixed [some devOne, some devTwo] =
      Except.ok [some devOne, some devTwo, some devThree] :=
  (c4_dedup_resolution oracleMixed progCached [some devOne, some devTwo]
    (by decide)).trans (by rfl)

/-- Counterexample to claim C1 as stated: on a released Program with one
requested device, `BuildProgram` does not fail with the InvalidProgram error;
it returns a composite `BuildError` (whose sections merely mention the
invalid-program fetch failures). -/
theorem c1_counterexample_build_after_release :
    (progReleased.BuildProgram oracleMixed [some devOne] "").2 ≠
      some (GoError.status CLErr.invalidProgram) ∧
    (progReleased.BuildProgram oracleMixed [some devOne] "").2 =
      some (GoError.build
        "status=cl: Invalid Program\nGPU0: <unable to fetch build log: cl: Invalid Program>") := by
  decide

/-- Claim C1 (amended): on a released Program, `GetBuildLog` fails with
InvalidProgram for every device argument and `CreateKernel` fails with
InvalidProgram; `BuildProgram` also fails, but with a composite `BuildError`
or an annotated status error derived from the invalid-program status, never
with the bare InvalidProgram error itself. -/
theorem c1_released_operations_fail (nat : Native) (q : Program) (name : String)
    (dev : Option Device) (devs : List (Option Device)) (opts : String) :
    ((q.Release).1).GetBuildLog nat dev = Except.error CLErr.invalidProgram ∧
    ((q.Release).1).CreateKernel nat name = Except.error CLErr.invalidProgram ∧
    (((q.Release).1).BuildProgram nat devs opts).2 ≠ none ∧
    (((q.Release).1).BuildProgram nat devs opts).2 ≠
      some (GoError.status CLErr.invalidProgram) := by
  obtain ⟨hp, hd⟩ := release_state q
  have hck : clCreateKernelStatus nat (q.Release).1 = CL_INVALID_PROGRAM := by
    simp [clCreateKernelStatus, hp]
  have hbs : clBuildProgramStatus nat (q.Release).1 = CL_INVALID_PROGRAM := by
    simp [clBuildProgramStatus, hp]
  have hne : clBuildProgramStatus nat (q.Release).1 ≠ CL_SUCCESS := by
    rw [hbs]; decide
  have hres : (((q.Release).1).BuildProgram nat devs opts).2 =
      some (((q.Release).1).wrapBuildError nat
        (clBuildProgramStatus nat (q.Release).1) devs) := by
    simp [Program.BuildProgram, hne]
  refine ⟨getBuildLog_released nat _ dev hp, ?_, ?_, ?_⟩
  · simp [Program.CreateKernel, hck, CL_INVALID_PROGRAM, CL_SUCCESS, toError]
  · rw [hres]; simp
  · rw [hres]
    intro hc
    exact wrapBuildError_released_not_bare nat (q.Release).1
      (clBuildProgramStatus nat (q.Release).1) devs hp CLErr.invalidProgram
      (Option.some.inj hc)

/-- Claim C3: when the native build fails, the requested/cached union is empty
and auto-discovery also fails, `BuildProgram` returns the annotated status
error — not a `BuildError` — whose text contains both the translated original
status and the discovery failure reason, with the state untouched. -/
theorem c3_total_fallback (nat : Native) (p : Program) (hnd : Nat)
    (requested : List (Option Device)) (opts : String) (c : Int)
    (hp : p.clProgram = some hnd)
    (hres : dedupByKey (requested ++ p.devices) [] = [])
    (hdisc : nat.progDeviceIds = Except.error c)
    (hfail : nat.buildStatus ≠ CL_SUCCESS) :
    p.BuildProgram nat requested opts =
      (p, some (GoError.statusAnnotated (toError nat.buildStatus) (toError c))) ∧
    errorText (GoError.statusAnnotated (toError nat.buildStatus) (toError c)) =
      "cl: build error (" ++ errText (toError nat.buildStatus) ++
        "; log unavailable: " ++ errText (toError c) ++ ")" ∧
    (GoError.statusAnnotated (toError nat.buildStatus) (toError c)).isBuild = false := by
  have hbs : clBuildProgramStatus nat p = nat.buildStatus := by
    simp [clBuildProgramStatus, hp]
  have key : (addDevices (addDevices [] [] requested).1
        (addDevices [] [] requested).2 p.devices).2
      = dedupByKey (requested ++ p.devices) [] := by
    rw [addDevices_eq, addDevices_eq, dedupByKey_append]
    simp
  have ha : p.associatedDevices nat = Except.error (toError c) := by
    simp [Program.associatedDevices, hp, hdisc]
  have hcd : p.collectDevicesForLogs nat requested = Except.error (toError c) := by
    simp only [Program.collectDevicesForLogs]
    rw [key, if_pos hres, ha]
  have hw : p.wrapBuildError nat nat.buildStatus requested =
      GoError.statusAnnotated (toError nat.buildStatus) (toError c) := by
    simp [Program.wrapBuildError, hcd]
  refine ⟨?_, rfl, rfl⟩
  simp [Program.BuildProgram, hbs, hfail, hw]

/-- Witness for C3: a failed build with nothing requested, nothing cached and
a failing discovery query yields the annotated status error. -/
theorem c3_total_fallback_witness :
    progLive.BuildProgram oracleDiscoveryFail [] "" =
      (progLive, some (GoError.statusAnnotated
        (toError oracleDiscoveryFail.buildStatus) (toError (-34)))) :=
  (c3_total_fallback oracleDiscoveryFail progLive 5 [] "" (-34)
    rfl (by decide) rfl (by decide)).1

/-- Claim C5: on a failed build whose device-set resolution succeeded, the
error composes per-device sections in resolution order — a failed fetch gives
an unable-to-fetch section, a blank trimmed log gives no section, a non-blank
trimmed log gives a `label:\nlog` section — prepending a
`status=<translated status>` line and joining with newlines into a
`BuildError` when at least one section exists, and falling back to the plain
translated status error when no section was produced. -/
theorem c5_composite_build_error (nat : Native) (p : Program) (hnd : Nat)
    (requested : List (Option Device)) (opts : String) (ds : List (Option Device))
    (hp : p.clProgram = some hnd) (hfail : nat.buildStatus ≠ CL_SUCCESS)
    (hres : p.collectDevicesForLogs nat requested = Except.ok ds) :
    p.BuildProgram nat requested opts =
      (p, some
        (if ds.filterMap (sectionFor nat p) = [] then
          GoError.status (toError nat.buildStatus)
        else
          GoError.build (String.intercalate "\n"
            (("status=" ++ errText (toError nat.buildStatus)) ::
              ds.filterMap (sectionFor nat p))))) := by
  have hbs : clBuildProgramStatus nat p = nat.buildStatus := by
    simp [clBuildProgramStatus, hp]
  have hlogs := collectBuildLogs_eq_filterMap nat p ds
  have hw : p.wrapBuildError nat nat.buildStatus requested =
      (if ds.filterMap (sectionFor nat p) = [] then
        GoError.status (toError nat.buildStatus)
      else
        GoError.build (String.intercalate "\n"
          (("status=" ++ errText (toError nat.buildStatus)) ::
            ds.filterMap (sectionFor nat p)))) := by
    simp [Program.wrapBuildError, hres, hlogs]
  simp [Program.BuildProgram, hbs, hfail, hw]

/-- Witness for C5: the end-to-end scenario — build failure `-11`, device 1
(`GPU0`) with log `"error: syntax\n"`, device 2 (`GPU1`) with an empty log —
produces exactly `status=<translated -11>` followed by the `GPU0` section,
with `GPU1` contributing nothing. -/
theorem c5_composite_build_error_witness :
    progLive.BuildProgram oracleMixed [some devOne, some devTwo] "-O2" =
      (progLive, some (GoError.build "status=cl: error -11\nGPU0:\nerror: syntax")) :=
  (c5_composite_build_error oracleMixed progLive 5 [some devOne, some devTwo] "-O2"
    [some devOne, some devTwo] rfl (by decide) (by rfl)).trans (by decide)

/-- Claim C6: a successful build with a non-empty explicit device list caches
exactly that list, in order, without deduplication, whatever auto-discovery
would have returned (the oracle's discovery answer is universally
quantified); the cache is a copy by value, so later caller-side mutation
cannot reach it. -/
theorem c6_device_set_preservation (nat : Native) (p : Program) (hnd : Nat)
    (devices : List (Option Device)) (opts : String)
    (hp : p.clProgram = some hnd) (hok : nat.buildStatus = CL_SUCCESS)
    (hne : devices ≠ []) :
    p.BuildProgram nat devices opts = ({ p with devices := devices }, none) := by
  have hbs : clBuildProgramStatus nat p = CL_SUCCESS := by
    simp [clBuildProgramStatus, hp, hok]
  have hlen : 0 < devices.length := List.length_pos.mpr hne
  simp [Program.BuildProgram, hbs, hlen]

/-- Witness for C6: building `[devOne, devOne]` over a cache of
`[devTwo, devThree]` replaces the cache with exactly `[devOne, devOne]` —
order kept, duplicates kept. -/
theorem c6_device_set_preservation_witness :
    progCached.BuildProgram oracleOk [some devOne, some devOne] "" =
      ({ clProgram := some 5, devices := [some devOne, some devOne] }, none) :=
  c6_device_set_preservation oracleOk progCached 5 [some devOne, some devOne] ""
    rfl rfl (by decide)

/-- Claim C7: a successful build with an empty device list on a Program with
an empty cache leaves success observable and caches exactly what the native
associated-devices query reports; a discovery failure is swallowed — the
build still returns success and the cache stays empty. -/
theorem c7_auto_discovery_cache (nat : Native) (p : Program) (hnd : Nat)
    (opts : String)
    (hp : p.clProgram = some hnd) (hok : nat.buildStatus = CL_SUCCESS)
    (hc : p.devices = []) :
    (p.BuildProgram nat [] opts).2 = none ∧
    (p.BuildProgram nat [] opts).1.clProgram = p.clProgram ∧
    (p.BuildProgram nat [] opts).1.devices =
      (match p.associatedDevices nat with
       | Except.ok ds => ds
       | Except.error _ => []) := by
  have hbs : clBuildProgramStatus nat p = CL_SUCCESS := by
    simp [clBuildProgramStatus, hp, hok]
  cases ha : p.associatedDevices nat with
  | ok ds =>
    cases ds with
    | nil => simp [Program.BuildProgram, hbs, hc, ha]
    | cons d rest => simp [Program.BuildProgram, hbs, hc, ha]
  | error e => simp [Program.BuildProgram, hbs, hc, ha]

/-- Witness for C7: discovery reporting ids 10, a null entry and 11 caches
`[⟨10⟩, ⟨11⟩]` (null filtered), and the build reports success. -/
theorem c7_auto_discovery_cache_witness :
    (progLive.BuildProgram oracleDiscovery [] "").2 = none ∧
    (progLive.BuildProgram oracleDiscovery [] "").1.devices =
      [some { id := 10 }, some { id := 11 }] := by
  have h := c7_auto_discovery_cache oracleDiscovery progLive 5 "" rfl rfl rfl
  exact ⟨h.1, h.2.2.trans (by rfl)⟩

/-- Claim C8: a log-fetch failure for one device does not abort aggregation;
the failing device contributes its unable-to-fetch section and a later device
whose fetch succeeds with a non-blank log contributes its normal section, in
resolution order. -/
theorem c8_graceful_degradation (nat : Native) (p : Program)
    (l1 l2 l3 : List (Option Device)) (dF dO : Option Device) (e : CLErr)
    (s : String)
    (hF : p.GetBuildLog nat dF = Except.error e)
    (hO : p.GetBuildLog nat dO = Except.ok s) (hs : trimSpace s ≠ "") :
    p.collectBuildLogs nat (l1 ++ dF :: (l2 ++ dO :: l3)) =
      p.collectBuildLogs nat l1 ++
        ((safeDeviceLabel nat dF ++ ": <unable to fetch build log: " ++ errText e ++ ">") ::
          (p.collectBuildLogs nat l2 ++
            ((safeDeviceLabel nat dO ++ ":\n" ++ trimSpace s) ::
              p.collectBuildLogs nat l3))) := by
  rw [collectBuildLogs_append, collectBuildLogs_cons_error nat p dF _ e hF,
    collectBuildLogs_append, collectBuildLogs_cons_ok nat p dO l3 s hO hs]

/-- Witness for C8: with the fetch failing for device 1 and succeeding with
log `"warn\n"` for device 2, both sections appear, in order. -/
theorem c8_graceful_degradation_witness :
    progLive.collectBuildLogs oracleFetchMixed [some devOne, some devTwo] =
      ["GPU0: <unable to fetch build log: cl: error -42>", "GPU1:\nwarn"] :=
  (c8_graceful_degradation oracleFetchMixed progLive [] [] [] (some devOne)
    (some devTwo) (toError (-42)) "warn\n" (by rfl) (by rfl) (by decide)).trans
    (by decide)
